/-
Verification of the Daikin One Home Assistant integration
(device-state synchronization and optimistic-write engine).

Shallow embedding of the relevant Python sources:
  custom_components/daikinone/utils.py      (Temperature)
  custom_components/daikinone/daikinone.py  (transport, decoder, cache)
  custom_components/daikinone/climate.py    (optimistic-write engine)

Python floats are modelled as exact rationals (ℚ); Python `round(x, 1)`
is modelled as exact round-half-even to one decimal place on ℚ.
-/

import Mathlib

namespace Daikinone

/-! ## Python-style rounding

`round(x, 1)` in Python rounds to the nearest multiple of 1/10,
breaking ties towards the even multiple (banker's rounding). -/

/-- Round-half-even to the nearest integer, as Python's builtin `round(x)`. -/
def roundHalfEven (q : ℚ) : ℤ :=
  if q - ⌊q⌋ < 1/2 then ⌊q⌋
  else if 1/2 < q - ⌊q⌋ then ⌊q⌋ + 1
  else if 2 ∣ ⌊q⌋ then ⌊q⌋ else ⌊q⌋ + 1

/-- Python's `round(x, 1)`: round to one decimal place, half to even. -/
def round1 (q : ℚ) : ℚ := (roundHalfEven (10 * q) : ℚ) / 10

/-! ## Temperature (utils.py)

`Temperature` wraps a single value `_temp_c`; `_init` stores
`round(temp_c, 1)`, and every accessor rounds again on read.
`__eq__` compares the stored `_temp_c` fields. -/

structure Temperature where
  temp_c : ℚ
deriving DecidableEq, Repr

namespace Temperature

/-- `Temperature.from_celsius`: `_init(temp_c)` stores `round(temp_c, 1)`. -/
def from_celsius (c : ℚ) : Temperature := ⟨round1 c⟩

/-- `Temperature.from_fahrenheit`: `_init((temp_f - 32) * 5 / 9)`. -/
def from_fahrenheit (f : ℚ) : Temperature := ⟨round1 ((f - 32) * 5 / 9)⟩

/-- `Temperature.from_kelvin`: `_init(temp_k - 273.15)`. -/
def from_kelvin (k : ℚ) : Temperature := ⟨round1 (k - 273.15)⟩

/-- The `celsius` property: `round(self._temp_c, 1)`. -/
def celsius (t : Temperature) : ℚ := round1 t.temp_c

/-- The `fahrenheit` property: `round(self._temp_c * 9 / 5 + 32, 1)`. -/
def fahrenheit (t : Temperature) : ℚ := round1 (t.temp_c * 9 / 5 + 32)

/-- The `kelvin` property: `round(self._temp_c + 273.15, 1)`. -/
def kelvin (t : Temperature) : ℚ := round1 (t.temp_c + 273.15)

/-- `Temperature.__eq__`: `isinstance(o, Temperature) and self._temp_c == o._temp_c`. -/
def pyEq (t o : Temperature) : Bool := t.temp_c == o.temp_c

end Temperature

/-! ## Request transport (daikinone.py, `DaikinOne.__req`)

`__req(url, method, body, retry=True)`:
  * if not authenticated, run `login()` first (a call to the auth
    endpoint, modelled as a state transformer `loginFn`);
  * issue the HTTP request through the device-API transport;
  * on status 200, return the decoded body;
  * on status 401 with `retry` true, run `__refresh_token()`
    (modelled as `refreshFn`) and recurse with `retry=False`;
  * otherwise raise `DaikinServiceException(message, status)` whose
    message embeds the response body.

The device-API transport is modelled as a function from the index of
the issued call to the response; the result records the value
returned or raised together with the number of transport calls made. -/

structure AuthState where
  authenticated : Bool
  refresh_token : Option String
  access_token : Option String
deriving Repr

structure HttpResponse where
  status : Nat
  body : String
deriving DecidableEq, Repr

inductive ReqResult where
  /-- HTTP 200: the decoded response payload is returned. -/
  | ok (payload : String)
  /-- `DaikinServiceException` carrying the HTTP status and response body. -/
  | serviceError (status : Nat) (body : String)
deriving DecidableEq, Repr

/-- `DaikinOne.__req`. Returns the outcome, the auth state after the call,
and the number of HTTP calls issued through the device-API transport
(calls made by `login`/`__refresh_token` go to the auth endpoints and are
modelled inside `loginFn`/`refreshFn`). -/
def req (loginFn refreshFn : AuthState → AuthState) (transport : Nat → HttpResponse)
    (auth : AuthState) (i : Nat) (retry : Bool) : ReqResult × AuthState × Nat :=
  -- if self.__auth.authenticated is not True: await self.login()
  let auth := if auth.authenticated then auth else loginFn auth
  let resp := transport i
  if resp.status = 200 then (.ok resp.body, auth, 1)
  else if resp.status = 401 ∧ retry = true then
    -- await self.__refresh_token(); return await self.__req(url, method, body, retry=False)
    let r := req loginFn refreshFn transport (refreshFn auth) (i + 1) false
    (r.1, r.2.1, r.2.2 + 1)
  else (.serviceError resp.status resp.body, auth, 1)
termination_by retry.toNat
decreasing_by simp_all

/-- A device-API transport mock that answers HTTP 401 to every request. -/
def always401 : Nat → HttpResponse := fun _ => ⟨401, "Unauthorized"⟩

/-! ## Python string helpers -/

/-- Python `str.capitalize()`: first character uppercased, the rest lowercased. -/
def pyCapitalize (s : String) : String :=
  match s.data with
  | [] => ""
  | c :: rest => String.mk (c.toUpper :: rest.map Char.toLower)

/-- Python dict assignment `m[k] = v`: replaces the value in place if the key
is present (insertion order preserved), appends otherwise. -/
def dictInsert {α : Type} (m : List (String × α)) (k : String) (v : α) : List (String × α) :=
  if m.any (fun p => p.1 = k) then m.map (fun p => if p.1 = k then (k, v) else p)
  else m ++ [(k, v)]

/-! ## Device payload decoder: domain model (daikinone.py)

The vendor payload's `data` member is a flat string-keyed map; we model
exactly the keys the decoder reads, as record fields. Vendor scaled
integer fields (demand counts, currents, pressures) are integers; vendor
temperature fields may carry decimals and are rationals. Python division
results are modelled exactly in ℚ (the source's dataclasses declare some
of these fields as `int` but assign floats; we record the assigned value). -/

inductive DaikinThermostatCapability where
  | HEAT
  | COOL
  | EMERGENCY_HEAT
deriving DecidableEq, Repr, Fintype

inductive DaikinThermostatMode where
  | OFF
  | HEAT
  | COOL
  | AUTO
  | AUX_HEAT
deriving DecidableEq, Repr

/-- `DaikinThermostatMode(code)`: raises `ValueError` on an unmapped code. -/
def DaikinThermostatMode.ofCode (code : ℤ) : Except String DaikinThermostatMode :=
  if code = 0 then .ok .OFF
  else if code = 1 then .ok .HEAT
  else if code = 2 then .ok .COOL
  else if code = 3 then .ok .AUTO
  else if code = 4 then .ok .AUX_HEAT
  else .error "not a valid DaikinThermostatMode"

inductive DaikinThermostatStatus where
  | COOLING
  | DRYING
  | HEATING
  | CIRCULATING_AIR
  | IDLE
deriving DecidableEq, Repr

/-- `DaikinThermostatStatus(code)`: raises `ValueError` on an unmapped code. -/
def DaikinThermostatStatus.ofCode (code : ℤ) : Except String DaikinThermostatStatus :=
  if code = 1 then .ok .COOLING
  else if code = 2 then .ok .DRYING
  else if code = 3 then .ok .HEATING
  else if code = 4 then .ok .CIRCULATING_AIR
  else if code = 5 then .ok .IDLE
  else .error "not a valid DaikinThermostatStatus"

inductive DaikinOutdoorUnitReversingValveStatus where
  | OFF
  | ON
  | UNKNOWN
deriving DecidableEq, Repr

/-- `DaikinOutdoorUnitReversingValveStatus(code)`: codes 0, 1, 255. -/
def DaikinOutdoorUnitReversingValveStatus.ofCode (code : ℤ) :
    Except String DaikinOutdoorUnitReversingValveStatus :=
  if code = 0 then .ok .OFF
  else if code = 1 then .ok .ON
  else if code = 255 then .ok .UNKNOWN
  else .error "not a valid DaikinOutdoorUnitReversingValveStatus"

inductive DaikinOutdoorUnitHeaterStatus where
  | OFF
  | ON
  | UNKNOWN
deriving DecidableEq, Repr

/-- `DaikinOutdoorUnitHeaterStatus(code)`: codes 0, 1, 255. -/
def DaikinOutdoorUnitHeaterStatus.ofCode (code : ℤ) :
    Except String DaikinOutdoorUnitHeaterStatus :=
  if code = 0 then .ok .OFF
  else if code = 1 then .ok .ON
  else if code = 255 then .ok .UNKNOWN
  else .error "not a valid DaikinOutdoorUnitHeaterStatus"

/-- `DaikinDevice` dataclass. -/
structure DaikinDevice where
  id : String
  name : String
  model : String
  firmware_version : String
deriving DecidableEq, Repr

/-- `DaikinEquipment` dataclass (common equipment fields). -/
structure DaikinEquipmentBase extends DaikinDevice where
  thermostat_id : String
  serial : String
deriving DecidableEq, Repr

/-- `DaikinIndoorUnit` dataclass (air handler or furnace). -/
structure DaikinIndoorUnit extends DaikinEquipmentBase where
  mode : String
  current_airflow : ℤ
  fan_demand_requested_percent : ℚ
  fan_demand_current_percent : ℚ
  heat_demand_requested_percent : ℚ
  heat_demand_current_percent : ℚ
  cool_demand_requested_percent : Option ℚ
  cool_demand_current_percent : Option ℚ
  humidification_demand_requested_percent : ℚ
  dehumidification_demand_requested_percent : Option ℚ
  power_usage : ℚ

/-- `DaikinOutdoorUnit` dataclass. `total_runtime` records the hour count
passed to `timedelta(hours=...)`. -/
structure DaikinOutdoorUnit extends DaikinEquipmentBase where
  inverter_software_version : Option String
  total_runtime : ℤ
  mode : String
  compressor_speed_target : ℤ
  compressor_speed_current : ℤ
  outdoor_fan_target_rpm : ℤ
  outdoor_fan_rpm : ℤ
  suction_pressure_psi : ℤ
  eev_opening_percent : ℤ
  reversing_valve : DaikinOutdoorUnitReversingValveStatus
  heat_demand_percent : ℚ
  cool_demand_percent : ℚ
  fan_demand_percent : ℚ
  fan_demand_airflow : ℤ
  dehumidify_demand_percent : ℚ
  air_temperature : Temperature
  coil_temperature : Temperature
  discharge_temperature : Temperature
  liquid_temperature : Temperature
  defrost_sensor_temperature : Temperature
  inverter_fin_temperature : Temperature
  power_usage : ℚ
  compressor_amps : ℚ
  inverter_amps : ℚ
  fan_motor_amps : ℚ
  crank_case_heater : DaikinOutdoorUnitHeaterStatus
  drain_pan_heater : DaikinOutdoorUnitHeaterStatus
  preheat_heater : DaikinOutdoorUnitHeaterStatus

/-- `DaikinEEVCoil` dataclass. -/
structure DaikinEEVCoil extends DaikinEquipmentBase where
  indoor_superheat_temperature : Temperature
  liquid_temperature : Temperature
  suction_temperature : Temperature
  pressure_psi : ℤ

/-- The closed set of equipment variants stored in a thermostat's
equipment map. -/
inductive DaikinEquipment where
  | indoorUnit (u : DaikinIndoorUnit)
  | outdoorUnit (u : DaikinOutdoorUnit)
  | eevCoil (u : DaikinEEVCoil)

def DaikinEquipment.isOutdoorUnit : DaikinEquipment → Bool
  | .outdoorUnit _ => true
  | _ => false

def DaikinEquipment.isIndoorUnit : DaikinEquipment → Bool
  | .indoorUnit _ => true
  | _ => false

def DaikinEquipment.isEEVCoil : DaikinEquipment → Bool
  | .eevCoil _ => true
  | _ => false

/-- `DaikinThermostatSchedule` dataclass. -/
structure DaikinThermostatSchedule where
  enabled : Bool
deriving DecidableEq, Repr

/-- `DaikinThermostat` dataclass. The `equipment` dict is an
insertion-ordered association list. -/
structure DaikinThermostat extends DaikinDevice where
  location_id : String
  online : Bool
  capabilities : Finset DaikinThermostatCapability
  mode : DaikinThermostatMode
  status : DaikinThermostatStatus
  schedule : DaikinThermostatSchedule
  indoor_temperature : Temperature
  indoor_humidity : ℤ
  set_point_heat : Temperature
  set_point_heat_min : Temperature
  set_point_heat_max : Temperature
  set_point_cool : Temperature
  set_point_cool_min : Temperature
  set_point_cool_max : Temperature
  equipment : List (String × DaikinEquipment)

/-- The `data` member of a `DaikinDeviceDataResponse`: the flat vendor
key/value payload, restricted to the keys the decoder reads. The
`ctSystemCap*` and `schedEnabled` keys are used for their truthiness. -/
structure DeviceData where
  ctSystemCapHeat : Bool
  ctSystemCapCool : Bool
  ctSystemCapEmergencyHeat : Bool
  schedEnabled : Bool
  mode : ℤ
  equipmentStatus : ℤ
  tempIndoor : ℚ
  humIndoor : ℤ
  hspActive : ℚ
  EquipProtocolMinHeatSetpoint : ℚ
  EquipProtocolMaxHeatSetpoint : ℚ
  cspActive : ℚ
  EquipProtocolMinCoolSetpoint : ℚ
  EquipProtocolMaxCoolSetpoint : ℚ
  -- air handler
  ctAHUnitType : ℤ
  ctAHModelNoCharacter1_15 : String
  ctAHSerialNoCharacter1_15 : String
  ctAHControlSoftwareVersion : String
  ctAHMode : String
  ctAHCurrentIndoorAirflow : ℤ
  ctAHFanRequestedDemand : ℤ
  ctAHFanCurrentDemandStatus : ℤ
  ctAHHeatRequestedDemand : ℤ
  ctAHHeatCurrentDemandStatus : ℤ
  ctAHHumidificationRequestedDemand : ℤ
  ctIndoorPower : ℤ
  -- furnace
  ctIFCUnitType : ℤ
  ctIFCModelNoCharacter1_15 : String
  ctIFCSerialNoCharacter1_15 : String
  ctIFCControlSoftwareVersion : String
  ctIFCOperatingHeatCoolMode : String
  ctIFCIndoorBlowerAirflow : ℤ
  ctIFCFanRequestedDemandPercent : ℤ
  ctIFCCurrentFanActualStatus : ℤ
  ctIFCHeatRequestedDemandPercent : ℤ
  ctIFCCurrentHeatActualStatus : ℤ
  ctIFCCoolRequestedDemandPercent : ℤ
  ctIFCCurrentCoolActualStatus : ℤ
  ctIFCHumRequestedDemandPercent : ℤ
  ctIFCDehumRequestedDemandPercent : ℤ
  -- outdoor unit
  ctOutdoorUnitType : ℤ
  ctOutdoorModelNoCharacter1_15 : String
  ctOutdoorSerialNoCharacter1_15 : String
  ctOutdoorControlSoftwareVersion : String
  ctOutdoorInverterSoftwareVersion : String
  ctOutdoorCompressorRunTime : ℤ
  ctOutdoorMode : String
  ctOutdoorHeatMaxRPS : ℤ
  ctTargetCompressorspeed : ℤ
  ctCurrentCompressorRPS : ℤ
  ctTargetODFanRPM : ℤ
  ctOutdoorFanRPM : ℤ
  ctOutdoorSuctionPressure : ℤ
  ctOutdoorEEVOpening : ℤ
  ctReversingValve : ℤ
  ctOutdoorHeatRequestedDemand : ℤ
  ctOutdoorCoolRequestedDemand : ℤ
  ctOutdoorFanRequestedDemandPercentage : ℤ
  ctOutdoorRequestedIndoorAirflow : ℤ
  ctOutdoorDeHumidificationRequestedDemand : ℤ
  ctOutdoorAirTemperature : ℚ
  ctOutdoorCoilTemperature : ℚ
  ctOutdoorDischargeTemperature : ℚ
  ctOutdoorLiquidTemperature : ℚ
  ctOutdoorDefrostSensorTemperature : ℚ
  ctInverterFinTemp : ℚ
  ctOutdoorPower : ℤ
  ctCompressorCurrent : ℤ
  ctInverterCurrent : ℤ
  ctODFanMotorCurrent : ℤ
  ctCrankCaseHeaterOnOff : ℤ
  ctDrainPanHeaterOnOff : ℤ
  ctPreHeatOnOff : ℤ
  -- eev coil
  ctCoilUnitType : ℤ
  ctCoilSerialNoCharacter1_15 : String
  ctCoilControlSoftwareVersion : String
  ctEEVCoilPressureSensor : ℤ
  ctEEVCoilSuperHeatValue : ℚ
  ctEEVCoilSubCoolValue : ℚ
  ctEEVCoilSuctionTemperature : ℚ

/-- `DaikinDeviceDataResponse` (pydantic model). -/
structure DaikinDeviceDataResponse where
  id : String
  locationId : String
  name : String
  model : String
  firmware : String
  online : Bool
  data : DeviceData

/-- The first lines of `DaikinOne.__map_thermostat`:
`capabilities = set(DaikinThermostatCapability)` starts from **every**
enum member, then conditionally adds members that are already present. -/
def mapCapabilities (d : DeviceData) : Finset DaikinThermostatCapability :=
  let capabilities : Finset DaikinThermostatCapability := Finset.univ
  let capabilities :=
    if d.ctSystemCapHeat then insert DaikinThermostatCapability.HEAT capabilities
    else capabilities
  let capabilities :=
    if d.ctSystemCapCool then insert DaikinThermostatCapability.COOL capabilities
    else capabilities
  if d.ctSystemCapEmergencyHeat then
    insert DaikinThermostatCapability.EMERGENCY_HEAT capabilities
  else capabilities

/-- The air-handler block of `DaikinOne.__map_equipment`
(guarded by `ctAHUnitType < 255`). -/
def mapAirHandlerUnit (payload : DaikinDeviceDataResponse) : DaikinIndoorUnit :=
  let d := payload.data
  let model := d.ctAHModelNoCharacter1_15.trim
  let serial := d.ctAHSerialNoCharacter1_15.trim
  { id := model ++ "-" ++ serial
    thermostat_id := payload.id
    name := "Air Handler"
    model := model
    firmware_version := d.ctAHControlSoftwareVersion.trim
    serial := serial
    mode := pyCapitalize d.ctAHMode.trim
    current_airflow := d.ctAHCurrentIndoorAirflow
    fan_demand_requested_percent := (d.ctAHFanRequestedDemand : ℚ) / 2
    fan_demand_current_percent := (d.ctAHFanCurrentDemandStatus : ℚ) / 2
    heat_demand_requested_percent := (d.ctAHHeatRequestedDemand : ℚ) / 2
    heat_demand_current_percent := (d.ctAHHeatCurrentDemandStatus : ℚ) / 2
    cool_demand_requested_percent := none
    cool_demand_current_percent := none
    humidification_demand_requested_percent := (d.ctAHHumidificationRequestedDemand : ℚ) / 2
    dehumidification_demand_requested_percent := none
    power_usage := (d.ctIndoorPower : ℚ) / 10 }

/-- The furnace block of `DaikinOne.__map_equipment`
(guarded by `ctIFCUnitType < 255`). -/
def mapFurnaceUnit (payload : DaikinDeviceDataResponse) : DaikinIndoorUnit :=
  let d := payload.data
  let model := d.ctIFCModelNoCharacter1_15.trim
  let serial := d.ctIFCSerialNoCharacter1_15.trim
  { id := model ++ "-" ++ serial
    thermostat_id := payload.id
    name := "Furnace"
    model := model
    firmware_version := d.ctIFCControlSoftwareVersion.trim
    serial := serial
    mode := pyCapitalize d.ctIFCOperatingHeatCoolMode.trim
    current_airflow := d.ctIFCIndoorBlowerAirflow
    fan_demand_requested_percent := (d.ctIFCFanRequestedDemandPercent : ℚ) / 2
    fan_demand_current_percent := (d.ctIFCCurrentFanActualStatus : ℚ) / 2
    heat_demand_requested_percent := (d.ctIFCHeatRequestedDemandPercent : ℚ) / 2
    heat_demand_current_percent := (d.ctIFCCurrentHeatActualStatus : ℚ) / 2
    cool_demand_requested_percent := some ((d.ctIFCCoolRequestedDemandPercent : ℚ) / 2)
    cool_demand_current_percent := some ((d.ctIFCCurrentCoolActualStatus : ℚ) / 2)
    humidification_demand_requested_percent := (d.ctIFCHumRequestedDemandPercent : ℚ) / 2
    dehumidification_demand_requested_percent := some ((d.ctIFCDehumRequestedDemandPercent : ℚ) / 2)
    power_usage := (d.ctIndoorPower : ℚ) / 10 }

/-- The outdoor-unit block of `DaikinOne.__map_equipment`
(guarded by `ctOutdoorUnitType < 255`); the enum-coded fields can raise. -/
def mapOutdoorUnit (payload : DaikinDeviceDataResponse) : Except String DaikinOutdoorUnit := do
  let d := payload.data
  let model := d.ctOutdoorModelNoCharacter1_15.trim
  let serial := d.ctOutdoorSerialNoCharacter1_15.trim
  -- assume it can cool, and if it can also heat it should be a heat pump
  let name := if d.ctOutdoorHeatMaxRPS ≠ 0 ∧ d.ctOutdoorHeatMaxRPS ≠ 65535
    then "Heat Pump" else "Condensing Unit"
  let rv ← DaikinOutdoorUnitReversingValveStatus.ofCode d.ctReversingValve
  let cch ← DaikinOutdoorUnitHeaterStatus.ofCode d.ctCrankCaseHeaterOnOff
  let dph ← DaikinOutdoorUnitHeaterStatus.ofCode d.ctDrainPanHeaterOnOff
  let phh ← DaikinOutdoorUnitHeaterStatus.ofCode d.ctPreHeatOnOff
  pure
    { id := model ++ "-" ++ serial
      thermostat_id := payload.id
      name := name
      model := model
      serial := serial
      firmware_version := d.ctOutdoorControlSoftwareVersion.trim
      inverter_software_version := some d.ctOutdoorInverterSoftwareVersion.trim
      total_runtime := d.ctOutdoorCompressorRunTime
      mode := pyCapitalize d.ctOutdoorMode.trim
      compressor_speed_target := d.ctTargetCompressorspeed
      compressor_speed_current := d.ctCurrentCompressorRPS
      outdoor_fan_target_rpm := d.ctTargetODFanRPM * 10
      outdoor_fan_rpm := d.ctOutdoorFanRPM
      suction_pressure_psi := d.ctOutdoorSuctionPressure
      eev_opening_percent := d.ctOutdoorEEVOpening
      reversing_valve := rv
      heat_demand_percent := round1 ((d.ctOutdoorHeatRequestedDemand : ℚ) / 2)
      cool_demand_percent := round1 ((d.ctOutdoorCoolRequestedDemand : ℚ) / 2)
      fan_demand_percent := round1 ((d.ctOutdoorFanRequestedDemandPercentage : ℚ) / 2)
      fan_demand_airflow := d.ctOutdoorRequestedIndoorAirflow
      dehumidify_demand_percent := round1 ((d.ctOutdoorDeHumidificationRequestedDemand : ℚ) / 2)
      air_temperature := Temperature.from_fahrenheit (d.ctOutdoorAirTemperature / 10)
      coil_temperature := Temperature.from_fahrenheit (d.ctOutdoorCoilTemperature / 10)
      discharge_temperature := Temperature.from_fahrenheit (d.ctOutdoorDischargeTemperature / 10)
      liquid_temperature := Temperature.from_fahrenheit (d.ctOutdoorLiquidTemperature / 10)
      defrost_sensor_temperature := Temperature.from_fahrenheit (d.ctOutdoorDefrostSensorTemperature / 10)
      inverter_fin_temperature := Temperature.from_celsius d.ctInverterFinTemp
      power_usage := (d.ctOutdoorPower : ℚ) * 10
      compressor_amps := (d.ctCompressorCurrent : ℚ) / 10
      inverter_amps := (d.ctInverterCurrent : ℚ) / 10
      fan_motor_amps := (d.ctODFanMotorCurrent : ℚ) / 10
      crank_case_heater := cch
      drain_pan_heater := dph
      preheat_heater := phh }

/-- The EEV-coil block of `DaikinOne.__map_equipment`
(guarded by `ctCoilUnitType < 255`). -/
def mapEEVCoilUnit (payload : DaikinDeviceDataResponse) : DaikinEEVCoil :=
  let d := payload.data
  let serial := d.ctCoilSerialNoCharacter1_15.trim
  { id := "eevcoil-" ++ serial
    thermostat_id := payload.id
    name := "EEV Coil"
    model := "EEV Coil"
    serial := serial
    firmware_version := d.ctCoilControlSoftwareVersion.trim
    pressure_psi := d.ctEEVCoilPressureSensor
    indoor_superheat_temperature := Temperature.from_fahrenheit (d.ctEEVCoilSuperHeatValue / 10)
    liquid_temperature := Temperature.from_fahrenheit (d.ctEEVCoilSubCoolValue / 10)
    suction_temperature := Temperature.from_fahrenheit (d.ctEEVCoilSuctionTemperature / 10) }

/-- The first two blocks of `DaikinOne.__map_equipment`: the air-handler
entry (guarded by `ctAHUnitType < 255`) then the furnace entry (guarded
by `ctIFCUnitType < 255`), added to the initially empty dict. -/
def equipAfterFurnace (payload : DaikinDeviceDataResponse) :
    List (String × DaikinEquipment) :=
  let equipment : List (String × DaikinEquipment) := []
  let equipment :=
    if payload.data.ctAHUnitType < 255 then
      dictInsert equipment (mapAirHandlerUnit payload).id
        (.indoorUnit (mapAirHandlerUnit payload))
    else equipment
  if payload.data.ctIFCUnitType < 255 then
    dictInsert equipment (mapFurnaceUnit payload).id
      (.indoorUnit (mapFurnaceUnit payload))
  else equipment

/-- The last block of `DaikinOne.__map_equipment`: the EEV-coil entry,
guarded by `ctCoilUnitType < 255`. -/
def coilStep (payload : DaikinDeviceDataResponse)
    (equipment : List (String × DaikinEquipment)) :
    List (String × DaikinEquipment) :=
  if payload.data.ctCoilUnitType < 255 then
    dictInsert equipment (mapEEVCoilUnit payload).id
      (.eevCoil (mapEEVCoilUnit payload))
  else equipment

/-- `DaikinOne.__map_equipment`: builds the equipment dict with one
conditional entry per category, in source order (air handler, furnace,
outdoor unit, eev coil). A category whose unit-type field is ≥ 255 is
skipped entirely. -/
def mapEquipment (payload : DaikinDeviceDataResponse) :
    Except String (List (String × DaikinEquipment)) := do
  let equipment := equipAfterFurnace payload
  -- outdoor unit
  let equipment ←
    if payload.data.ctOutdoorUnitType < 255 then do
      let u ← mapOutdoorUnit payload
      pure (dictInsert equipment u.id (.outdoorUnit u))
    else pure equipment
  -- eev coil
  pure (coilStep payload equipment)

/-- `DaikinOne.__map_thermostat`. -/
def mapThermostat (payload : DaikinDeviceDataResponse) : Except String DaikinThermostat := do
  let capabilities := mapCapabilities payload.data
  let schedule : DaikinThermostatSchedule := ⟨payload.data.schedEnabled⟩
  let mode ← DaikinThermostatMode.ofCode payload.data.mode
  let status ← DaikinThermostatStatus.ofCode payload.data.equipmentStatus
  let equipment ← mapEquipment payload
  pure
    { id := payload.id
      location_id := payload.locationId
      name := payload.name
      model := payload.model
      firmware_version := payload.firmware
      online := payload.online
      capabilities := capabilities
      mode := mode
      status := status
      schedule := schedule
      indoor_temperature := Temperature.from_celsius payload.data.tempIndoor
      indoor_humidity := payload.data.humIndoor
      set_point_heat := Temperature.from_celsius payload.data.hspActive
      set_point_heat_min := Temperature.from_celsius payload.data.EquipProtocolMinHeatSetpoint
      set_point_heat_max := Temperature.from_celsius payload.data.EquipProtocolMaxHeatSetpoint
      set_point_cool := Temperature.from_celsius payload.data.cspActive
      set_point_cool_min := Temperature.from_celsius payload.data.EquipProtocolMinCoolSetpoint
      set_point_cool_max := Temperature.from_celsius payload.data.EquipProtocolMaxCoolSetpoint
      equipment := equipment }

/-- The dict comprehension in `DaikinOne.__refresh_thermostats`:
decode every device record in order; any record's failure aborts the
whole comprehension before the cache assignment runs. -/
def decodeDevices : List DaikinDeviceDataResponse →
    Except String (List (String × DaikinThermostat))
  | [] => .ok []
  | d :: rest => do
    let t ← mapThermostat d
    let entries ← decodeDevices rest
    pure ((d.id, t) :: entries)

/-- `DaikinOne.__refresh_thermostats`: fetch (and pydantic-parse) the device
collection, decode every record, and only then replace `self.__thermostats`
in a single assignment. `fetch` models the outcome of `__req` plus parsing;
the second component of the result is the exception propagated, if any. -/
def refreshThermostats (cache : List (String × DaikinThermostat))
    (fetch : Except String (List DaikinDeviceDataResponse)) :
    List (String × DaikinThermostat) × Option String :=
  match fetch with
  | .error e => (cache, some e)
  | .ok devices =>
    match decodeDevices devices with
    | .error e => (cache, some e)
    | .ok entries => (entries.foldl (fun m p => dictInsert m p.1 p.2) [], none)

/-! ## Optimistic-write engine (climate.py, `DaikinOneThermostat`)

The entity's observable state: its thermostat snapshot, its
`_updates_paused` flag, and counters for the externally visible effects
(`self._data.update` calls, full entity refreshes performed by
`async_update`, `async_write_ha_state` publications).

`remote n` models the thermostat returned by
`self._data.daikin.get_thermostat(...)` after the n-th call to
`self._data.update`. The wall-clock budget of the `backoff` confirmation
loop (`max_time=10`) is modelled by a retry budget `fuel`: the loop makes
one attempt, then up to `fuel` further attempts before giving up. -/

structure ClimateEntityState where
  thermostat : DaikinThermostat
  updates_paused : Bool
  pollCount : Nat
  fullRefreshes : Nat
  published : Nat

/-- `DaikinOneThermostat.async_update(no_throttle)`: returns immediately if
`self._updates_paused` is set; otherwise refreshes the data cache and
replaces `self._thermostat` with a fresh copy from it. -/
def async_update (remote : Nat → DaikinThermostat) (noThrottle : Bool)
    (e : ClimateEntityState) : ClimateEntityState :=
  if e.updates_paused then e
  else
    { e with
      pollCount := e.pollCount + 1
      thermostat := remote (e.pollCount + 1)
      fullRefreshes := e.fullRefreshes + (if noThrottle then 1 else 0) }

/-- `DaikinOneThermostat._wait_for_updated_value` under its
`backoff.on_predicate(backoff.constant, max_time=10, ...)` decorator:
each attempt refreshes the cache (`self._data.update(no_throttle=True)`)
and evaluates the check against a fresh thermostat copy; on predicate
success the loop stops with `true`, and when the budget is exhausted it
gives up and stops with the last falsy value — no exception either way. -/
def waitForUpdatedValue (remote : Nat → DaikinThermostat)
    (check : DaikinThermostat → Bool) :
    Nat → ClimateEntityState → ClimateEntityState × Bool
  | fuel, e =>
    let e' := { e with pollCount := e.pollCount + 1 }
    if check (remote e'.pollCount) then (e', true)
    else
      match fuel with
      | 0 => (e', false)
      | f + 1 => waitForUpdatedValue remote check f e'

/-- The lines of `update_state_optimistically` before the confirmation
loop: apply the optimistic mutation to `self._thermostat`, recompute
entity attributes, and publish (`async_write_ha_state`). -/
def optimisticApply (upd : DaikinThermostat → DaikinThermostat)
    (e : ClimateEntityState) : ClimateEntityState :=
  { e with thermostat := upd e.thermostat, published := e.published + 1 }

/-- `DaikinOneThermostat.update_state_optimistically` (climate.py).
Note: the source writes `_updates_paused = True` and later
`_updates_paused = False` as **local variables** — not
`self._updates_paused` — so the entity's pause flag is never touched;
the two `let` bindings below reproduce that faithfully. -/
def update_state_optimistically (remote : Nat → DaikinThermostat)
    (upd : DaikinThermostat → DaikinThermostat) (check : DaikinThermostat → Bool)
    (fuel : Nat) (e : ClimateEntityState) : ClimateEntityState :=
  -- pause entity updates  (source: `_updates_paused = True`, a local binding)
  let _updates_paused := true
  -- execute state update optimistically; publish
  let e1 := optimisticApply upd e
  -- wait for remote state to be updated
  let e2 := (waitForUpdatedValue remote check fuel e1).1
  -- resume entity updates  (source: `_updates_paused = False`, a local binding)
  let _updates_paused := false
  -- full entity update to make sure everything is in sync; publish
  let e3 := async_update remote true e2
  { e3 with published := e3.published + 1 }

/-! ## Write-request validation (climate.py `async_set_temperature`,
daikinone.py `set_thermostat_home_set_points`)

A write operation's observable network effect is the list of PUT bodies
it sends to `/deviceData/{id}`, paired with the exception it raises, if
any. Python truthiness on the `kwargs` floats: `None` and `0.0` are
falsy. -/

/-- Body of a `PUT /deviceData/{id}` setpoint request as built by
`set_thermostat_home_set_points`. -/
structure PutSetPointsBody where
  thermostat_id : String
  hspHome : Option ℚ
  cspHome : Option ℚ
  schedOverride : Bool
deriving DecidableEq, Repr

/-- Python truthiness of an optional float argument. -/
def pyTruthyOptQ : Option ℚ → Bool
  | none => false
  | some x => !(x == 0)

/-- `DaikinOne.set_thermostat_home_set_points`: raises `ValueError` before
any network call when neither setpoint is supplied (a `Temperature`
instance is always truthy, so `not heat` is `heat is None`); otherwise
issues exactly one PUT with the assembled payload. -/
def set_thermostat_home_set_points (thermostat_id : String)
    (heat cool : Option Temperature) (override_schedule : Bool) :
    List PutSetPointsBody × Option String :=
  if heat = none ∧ cool = none then
    ([], some "At least one of heat or cool set points must be set")
  else
    ([{ thermostat_id := thermostat_id
        hspHome := heat.map Temperature.celsius
        cspHome := cool.map Temperature.celsius
        schedOverride := override_schedule }], none)

/-- `DaikinOneThermostat.async_set_temperature`, down to the write request
it issues (the optimistic-update phase that follows a successful write is
modelled separately by `update_state_optimistically`). `mode` and
`schedEnabled` are the entity's current thermostat mode and schedule
flag; the three optional arguments are the `kwargs` values. -/
def async_set_temperature (mode : DaikinThermostatMode) (schedEnabled : Bool)
    (thermostat_id : String)
    (temperature target_temp_low target_temp_high : Option ℚ) :
    List PutSetPointsBody × Option String :=
  if pyTruthyOptQ target_temp_low || pyTruthyOptQ target_temp_high then
    -- heat/cool built by `is not None` checks, not truthiness
    let heat := target_temp_low.map Temperature.from_celsius
    let cool := target_temp_high.map Temperature.from_celsius
    set_thermostat_home_set_points thermostat_id heat cool schedEnabled
  else if pyTruthyOptQ temperature then
    match temperature with
    | none => ([], some "unreachable")
    | some t =>
      let t' := Temperature.from_celsius t
      match mode with
      | .HEAT | .AUX_HEAT =>
        set_thermostat_home_set_points thermostat_id (some t') none false
      | .COOL =>
        set_thermostat_home_set_points thermostat_id none (some t') false
      | _ => ([], some "Invalid thermostat mode and set temperature combination")
  else ([], some "Set temperature called with no temperature values")

/-! ## Device state cache copy isolation (daikinone.py `get_thermostat`)

To express Python aliasing, thermostat objects live in an explicit heap;
`DaikinOne.__thermostats` maps ids to the addresses of the live cached
objects. `get_thermostat` returns `copy.deepcopy(...)`: a fresh
thermostat object whose nested schedule object is itself a fresh copy.
Mutations performed by a caller (as the optimistic-write path does:
`t.mode = ...`, `t.set_point_heat = ...`) act on the heap at the address
the caller holds. For the isolation argument it suffices to track a
representative top-level field of each kind plus the nested schedule. -/

structure SchedObj where
  enabled : Bool
deriving DecidableEq, Repr

structure ThermoObj where
  id : String
  mode : ℤ
  set_point_heat : ℚ
  schedAddr : Nat
deriving DecidableEq, Repr

structure Heap where
  thermos : List ThermoObj
  scheds : List SchedObj
deriving Repr

/-- The integration's cache state: heap plus `self.__thermostats`. -/
structure DaikinCacheState where
  heap : Heap
  cache : List (String × Nat)
deriving Repr

/-- `self.__thermostats[thermostat_id]`: address of the live cached object. -/
def lookupAddr (c : List (String × Nat)) (tid : String) : Option Nat :=
  (c.find? (fun p => p.1 = tid)).map Prod.snd

/-- `copy.deepcopy` of a thermostat object: allocates a fresh copy of the
nested schedule object, then a fresh thermostat object pointing at it. -/
def deepcopyThermo (h : Heap) (a : Nat) : Option (Heap × Nat) :=
  match h.thermos[a]? with
  | none => none
  | some t =>
    match h.scheds[t.schedAddr]? with
    | none => none
    | some s =>
      some ({ thermos := h.thermos ++ [{ t with schedAddr := h.scheds.length }]
              scheds := h.scheds ++ [s] },
            h.thermos.length)

/-- `DaikinOne.get_thermostat`: `copy.deepcopy(self.__thermostats[id])`.
Returns the grown heap and the address of the fresh copy. -/
def get_thermostat (st : DaikinCacheState) (tid : String) :
    Option (DaikinCacheState × Nat) :=
  match lookupAddr st.cache tid with
  | none => none
  | some a =>
    match deepcopyThermo st.heap a with
    | none => none
    | some (h', a') => some ({ st with heap := h' }, a')

/-- A mutation the caller can apply to the object it was handed:
assignment to a top-level field, or to a field of the nested schedule. -/
inductive ThermoMutation where
  | setMode (m : ℤ)
  | setSetPointHeat (q : ℚ)
  | setSchedEnabled (b : Bool)
deriving DecidableEq, Repr

def mutateThermo (h : Heap) (a : Nat) : ThermoMutation → Heap
  | .setMode m =>
    match h.thermos[a]? with
    | none => h
    | some t => { h with thermos := h.thermos.set a { t with mode := m } }
  | .setSetPointHeat q =>
    match h.thermos[a]? with
    | none => h
    | some t => { h with thermos := h.thermos.set a { t with set_point_heat := q } }
  | .setSchedEnabled b =>
    match h.thermos[a]? with
    | none => h
    | some t =>
      match h.scheds[t.schedAddr]? with
      | none => h
      | some s => { h with scheds := h.scheds.set t.schedAddr { s with enabled := b } }

/-- The dereferenced (observable) value of a thermostat object. -/
structure ThermoValue where
  id : String
  mode : ℤ
  set_point_heat : ℚ
  schedEnabled : Bool
deriving DecidableEq, Repr

def derefThermo (h : Heap) (a : Nat) : Option ThermoValue :=
  match h.thermos[a]? with
  | none => none
  | some t => (h.scheds[t.schedAddr]?).map
      (fun s => ⟨t.id, t.mode, t.set_point_heat, s.enabled⟩)

/-- Cache well-formedness: every cached address points at a thermostat
object whose schedule reference is live. -/
def wfCache (st : DaikinCacheState) : Bool :=
  st.cache.all (fun p =>
    match st.heap.thermos[p.2]? with
    | none => false
    | some t => t.schedAddr < st.heap.scheds.length)

/-! ## Concrete sample values (used by the witnesses) -/

def sampleThermostat : DaikinThermostat :=
  { id := "t-1", name := "Main Floor", model := "ONEPLUS", firmware_version := "3.1.7"
    location_id := "loc-1", online := true
    capabilities := Finset.univ
    mode := .HEAT, status := .IDLE, schedule := ⟨false⟩
    indoor_temperature := Temperature.from_celsius 21
    indoor_humidity := 40
    set_point_heat := Temperature.from_celsius 20
    set_point_heat_min := Temperature.from_celsius 10
    set_point_heat_max := Temperature.from_celsius 30
    set_point_cool := Temperature.from_celsius 25
    set_point_cool_min := Temperature.from_celsius 15
    set_point_cool_max := Temperature.from_celsius 35
    equipment := [] }

def sampleEntity : ClimateEntityState :=
  { thermostat := sampleThermostat, updates_paused := false
    pollCount := 0, fullRefreshes := 0, published := 0 }

/-- A concrete vendor payload: air handler present (`ctAHUnitType = 1`),
furnace and coil absent (255), outdoor unit present (`ctOutdoorUnitType
= 10`) with valid enum codes and padded model/serial strings. -/
def sampleData : DeviceData :=
  { ctSystemCapHeat := true, ctSystemCapCool := false, ctSystemCapEmergencyHeat := false
    schedEnabled := true, mode := 1, equipmentStatus := 5
    tempIndoor := 21.5, humIndoor := 40
    hspActive := 20, EquipProtocolMinHeatSetpoint := 10, EquipProtocolMaxHeatSetpoint := 30
    cspActive := 25, EquipProtocolMinCoolSetpoint := 15, EquipProtocolMaxCoolSetpoint := 35
    ctAHUnitType := 1
    ctAHModelNoCharacter1_15 := "AH-MODEL  ", ctAHSerialNoCharacter1_15 := " AH001 "
    ctAHControlSoftwareVersion := "1.0 ", ctAHMode := "heat "
    ctAHCurrentIndoorAirflow := 400
    ctAHFanRequestedDemand := 90, ctAHFanCurrentDemandStatus := 88
    ctAHHeatRequestedDemand := 100, ctAHHeatCurrentDemandStatus := 100
    ctAHHumidificationRequestedDemand := 0, ctIndoorPower := 35
    ctIFCUnitType := 255
    ctIFCModelNoCharacter1_15 := "", ctIFCSerialNoCharacter1_15 := ""
    ctIFCControlSoftwareVersion := "", ctIFCOperatingHeatCoolMode := ""
    ctIFCIndoorBlowerAirflow := 0
    ctIFCFanRequestedDemandPercent := 0, ctIFCCurrentFanActualStatus := 0
    ctIFCHeatRequestedDemandPercent := 0, ctIFCCurrentHeatActualStatus := 0
    ctIFCCoolRequestedDemandPercent := 0, ctIFCCurrentCoolActualStatus := 0
    ctIFCHumRequestedDemandPercent := 0, ctIFCDehumRequestedDemandPercent := 0
    ctOutdoorUnitType := 10
    ctOutdoorModelNoCharacter1_15 := "OU-MODEL ", ctOutdoorSerialNoCharacter1_15 := " OU001"
    ctOutdoorControlSoftwareVersion := "2.3", ctOutdoorInverterSoftwareVersion := "9.9"
    ctOutdoorCompressorRunTime := 1200, ctOutdoorMode := "heat"
    ctOutdoorHeatMaxRPS := 70
    ctTargetCompressorspeed := 40, ctCurrentCompressorRPS := 38
    ctTargetODFanRPM := 50, ctOutdoorFanRPM := 495
    ctOutdoorSuctionPressure := 120, ctOutdoorEEVOpening := 45
    ctReversingValve := 1
    ctOutdoorHeatRequestedDemand := 101, ctOutdoorCoolRequestedDemand := 0
    ctOutdoorFanRequestedDemandPercentage := 80, ctOutdoorRequestedIndoorAirflow := 400
    ctOutdoorDeHumidificationRequestedDemand := 0
    ctOutdoorAirTemperature := 412, ctOutdoorCoilTemperature := 350
    ctOutdoorDischargeTemperature := 900, ctOutdoorLiquidTemperature := 380
    ctOutdoorDefrostSensorTemperature := 330, ctInverterFinTemp := 42
    ctOutdoorPower := 2, ctCompressorCurrent := 85
    ctInverterCurrent := 82, ctODFanMotorCurrent := 6
    ctCrankCaseHeaterOnOff := 0, ctDrainPanHeaterOnOff := 0, ctPreHeatOnOff := 0
    ctCoilUnitType := 255
    ctCoilSerialNoCharacter1_15 := "", ctCoilControlSoftwareVersion := ""
    ctEEVCoilPressureSensor := 0
    ctEEVCoilSuperHeatValue := 0, ctEEVCoilSubCoolValue := 0
    ctEEVCoilSuctionTemperature := 0 }

def samplePayload : DaikinDeviceDataResponse :=
  { id := "t-1", locationId := "loc-1", name := "Main Floor"
    model := "ONEPLUS", firmware := "3.1.7", online := true, data := sampleData }

/-- The thermostat decoded from `samplePayload` (defined by extraction so
the witnesses can name it without restating every field). -/
def sampleDecoded : DaikinThermostat :=
  (mapThermostat samplePayload).toOption.getD sampleThermostat

/-- A payload that fails decoding: vendor mode code 7 is unmapped. -/
def badModePayload : DaikinDeviceDataResponse :=
  { samplePayload with data := { sampleData with mode := 7 } }

/-- The synthetic id `{model}-{serial}` of a payload's outdoor unit,
built from the trimmed model and serial strings. -/
def outdoorEid (payload : DaikinDeviceDataResponse) : String :=
  payload.data.ctOutdoorModelNoCharacter1_15.trim ++ "-"
    ++ payload.data.ctOutdoorSerialNoCharacter1_15.trim

/-- The outdoor-unit entries of an equipment map. -/
def outdoorEntries (m : List (String × DaikinEquipment)) :
    List (String × DaikinEquipment) :=
  m.filter (fun p => p.2.isOutdoorUnit)

/-- The indoor-unit (air handler / furnace) entries of an equipment map. -/
def indoorEntries (m : List (String × DaikinEquipment)) :
    List (String × DaikinEquipment) :=
  m.filter (fun p => p.2.isIndoorUnit)

/-- The EEV-coil entries of an equipment map. -/
def coilEntries (m : List (String × DaikinEquipment)) :
    List (String × DaikinEquipment) :=
  m.filter (fun p => p.2.isEEVCoil)

/-- The outdoor unit decoded from `samplePayload` (defined by extraction). -/
def sampleOutdoorUnit : DaikinOutdoorUnit :=
  ((mapOutdoorUnit samplePayload).toOption).get (by rfl)

/-- The equipment map decoded from `samplePayload` (defined by extraction). -/
def sampleEquipmentMap : List (String × DaikinEquipment) :=
  ((mapEquipment samplePayload).toOption).getD []

/-- A concrete previous cache contents, used to observe preservation. -/
def sampleCache : List (String × DaikinThermostat) :=
  [("old", sampleThermostat)]

/-- A concrete heap-based cache state holding one live thermostat object. -/
def sampleCacheState : DaikinCacheState :=
  { heap := { thermos := [⟨"t-1", 1, 20, 0⟩], scheds := [⟨true⟩] }
    cache := [("t-1", 0)] }

/-- The cache state after one `get_thermostat` call (defined by extraction). -/
def sampleCacheStep1 : DaikinCacheState :=
  ((get_thermostat sampleCacheState "t-1").map Prod.fst).getD sampleCacheState

/-! # Helper lemmas -/

theorem roundHalfEven_intCast (n : ℤ) : roundHalfEven (n : ℚ) = n := by
  unfold roundHalfEven
  norm_num

theorem round1_div_ten (n : ℤ) : round1 ((n : ℚ) / 10) = (n : ℚ) / 10 := by
  unfold round1
  have h : (10 : ℚ) * ((n : ℚ) / 10) = (n : ℚ) := by ring
  rw [h, roundHalfEven_intCast]

theorem round1_round1 (q : ℚ) : round1 (round1 q) = round1 q := by
  have h := round1_div_ten (roundHalfEven (10 * q))
  simpa [round1] using h

/-- Half of an integer is a multiple of 1/10, so rounding it to one
decimal place returns it unchanged. -/
theorem round1_int_half (x : ℤ) : round1 ((x : ℚ) / 2) = (x : ℚ) / 2 := by
  have h := round1_div_ten (5 * x)
  have e : ((5 * x : ℤ) : ℚ) / 10 = (x : ℚ) / 2 := by push_cast; ring
  rw [e] at h
  exact h

theorem except_bind_ok {ε α β : Type} (x : Except ε α) (f : α → Except ε β) (b : β) :
    (x >>= f) = .ok b ↔ ∃ a, x = .ok a ∧ f a = .ok b := by
  cases x <;> simp [Bind.bind, Except.bind]

/-- The confirmation loop only advances the poll counter: it never touches
the pause flag, the entity's thermostat snapshot, the refresh counter or
the publish counter. -/
theorem waitForUpdatedValue_state (remote : Nat → DaikinThermostat)
    (check : DaikinThermostat → Bool) :
    ∀ (fuel : Nat) (e : ClimateEntityState),
      ((waitForUpdatedValue remote check fuel e).1).updates_paused = e.updates_paused
        ∧ ((waitForUpdatedValue remote check fuel e).1).thermostat = e.thermostat
        ∧ ((waitForUpdatedValue remote check fuel e).1).fullRefreshes = e.fullRefreshes
        ∧ ((waitForUpdatedValue remote check fuel e).1).published = e.published := by
  intro fuel
  induction fuel with
  | zero =>
    intro e
    rw [waitForUpdatedValue]
    split <;> simp
  | succ f ih =>
    intro e
    rw [waitForUpdatedValue]
    split
    · simp
    · exact ih _

theorem filter_map_nil {α : Type} (P : String × α → Bool) (m : List (String × α))
    (k : String) (v : α) (hm : m.filter P = []) (hv : P (k, v) = false) :
    (m.map (fun p => if p.1 = k then (k, v) else p)).filter P = [] := by
  rw [List.filter_eq_nil_iff] at hm ⊢
  intro p hp
  obtain ⟨q, hq, rfl⟩ := List.mem_map.mp hp
  by_cases h : q.1 = k
  · simp [h, hv]
  · simpa [h] using hm q hq

theorem filter_dictInsert_nil {α : Type} (P : String × α → Bool) (m : List (String × α))
    (k : String) (v : α) (hm : m.filter P = []) (hv : P (k, v) = false) :
    (dictInsert m k v).filter P = [] := by
  unfold dictInsert
  split
  · exact filter_map_nil P m k v hm hv
  · simp [List.filter_append, hm, hv]

theorem filter_map_replace {α : Type} (P : String × α → Bool) (k : String) (v : α)
    (hv : P (k, v) = true) :
    ∀ m : List (String × α), m.filter P = [] → (m.map Prod.fst).Nodup →
      m.any (fun p => p.1 = k) = true →
      (m.map (fun p => if p.1 = k then (k, v) else p)).filter P = [(k, v)] := by
  intro m
  induction m with
  | nil => intro _ _ hk; simp at hk
  | cons q rest ih =>
    intro hm hnd hk
    have hall := List.filter_eq_nil_iff.mp hm
    have hrest : rest.filter P = [] :=
      List.filter_eq_nil_iff.mpr fun a ha => hall a (List.mem_cons_of_mem _ ha)
    have hnd' : (q.1 :: rest.map Prod.fst).Nodup := by simpa using hnd
    by_cases hq : q.1 = k
    · have hknotin : k ∉ rest.map Prod.fst := hq ▸ (List.nodup_cons.mp hnd').1
      have hrestid : rest.map (fun p => if p.1 = k then (k, v) else p) = rest := by
        rw [List.map_congr_left, List.map_id]
        intro p hp
        have hne : p.1 ≠ k := fun hpk => hknotin (hpk ▸ List.mem_map_of_mem Prod.fst hp)
        simp [hne]
      simp only [List.map_cons, if_pos hq, hrestid]
      rw [List.filter_cons, if_pos hv, hrest]
    · have hk' : rest.any (fun p => p.1 = k) = true := by
        simpa [List.any_cons, hq] using hk
      have hPq : ¬ P q = true := hall q (List.mem_cons_self _ _)
      simp only [List.map_cons, if_neg hq]
      rw [List.filter_cons, if_neg hPq]
      exact ih hrest (List.nodup_cons.mp hnd').2 hk'

theorem filter_dictInsert_true {α : Type} (P : String × α → Bool)
    (m : List (String × α)) (k : String) (v : α) (hv : P (k, v) = true)
    (hm : m.filter P = []) (hnd : (m.map Prod.fst).Nodup) :
    (dictInsert m k v).filter P = [(k, v)] := by
  unfold dictInsert
  split
  · exact filter_map_replace P k v hv m hm hnd (by assumption)
  · simp [List.filter_append, hm, hv]

theorem filter_map_keep {α : Type} (P : String × α → Bool) (k : String) (v : α)
    (k0 : String) (v0 : α) (hv : P (k, v) = false) (hne : k ≠ k0) :
    ∀ m : List (String × α), m.filter P = [(k0, v0)] →
      (m.map (fun p => if p.1 = k then (k, v) else p)).filter P = [(k0, v0)] := by
  intro m
  induction m with
  | nil => intro h; simp at h
  | cons q rest ih =>
    intro hm
    rw [List.filter_cons] at hm
    by_cases hPq : P q = true
    · rw [if_pos hPq] at hm
      obtain ⟨rfl, hrest⟩ : q = (k0, v0) ∧ rest.filter P = [] := by
        simpa using hm
      have hq1 : (k0, v0).1 ≠ k := fun h => hne (h ▸ rfl)
      simp only [List.map_cons, if_neg hq1]
      rw [List.filter_cons, if_pos hPq, filter_map_nil P rest k v hrest hv]
    · rw [if_neg hPq] at hm
      simp only [List.map_cons]
      by_cases hq1 : q.1 = k
      · rw [if_pos hq1, List.filter_cons, if_neg (by simp [hv])]
        exact ih hm
      · rw [if_neg hq1, List.filter_cons, if_neg hPq]
        exact ih hm

theorem filter_dictInsert_keep {α : Type} (P : String × α → Bool)
    (m : List (String × α)) (k : String) (v : α) (k0 : String) (v0 : α)
    (hm : m.filter P = [(k0, v0)]) (hv : P (k, v) = false) (hne : k ≠ k0) :
    (dictInsert m k v).filter P = [(k0, v0)] := by
  unfold dictInsert
  split
  · exact filter_map_keep P k v k0 v0 hv hne m hm
  · simp [List.filter_append, hm, hv]

theorem keysNodup_dictInsert {α : Type} (m : List (String × α)) (k : String) (v : α)
    (h : (m.map Prod.fst).Nodup) : ((dictInsert m k v).map Prod.fst).Nodup := by
  unfold dictInsert
  split
  case isTrue _ =>
    have he : (m.map (fun p => if p.1 = k then (k, v) else p)).map Prod.fst
        = m.map Prod.fst := by
      rw [List.map_map]
      apply List.map_congr_left
      intro p _
      by_cases hq : p.1 = k <;> simp [hq, Function.comp]
    rw [he]
    exact h
  case isFalse hk =>
    have hknotin : k ∉ m.map Prod.fst := by
      intro hmem
      obtain ⟨p, hp, hpk⟩ := List.mem_map.mp hmem
      exact hk (List.any_eq_true.mpr ⟨p, hp, by simp [hpk]⟩)
    simp [List.nodup_append, h, hknotin]

theorem filter_condInsert_nil {α : Type} (P : String × α → Bool) (c : Prop)
    [Decidable c] (m : List (String × α)) (k : String) (v : α)
    (hm : m.filter P = []) (hv : P (k, v) = false) :
    (if c then dictInsert m k v else m).filter P = [] := by
  split
  · exact filter_dictInsert_nil P m k v hm hv
  · exact hm

theorem keysNodup_condInsert {α : Type} (c : Prop) [Decidable c]
    (m : List (String × α)) (k : String) (v : α)
    (h : (m.map Prod.fst).Nodup) :
    (((if c then dictInsert m k v else m)).map Prod.fst).Nodup := by
  split
  · exact keysNodup_dictInsert m k v h
  · exact h

theorem equipAfterFurnace_outdoor_free (payload : DaikinDeviceDataResponse) :
    (equipAfterFurnace payload).filter (fun p => p.2.isOutdoorUnit) = [] := by
  unfold equipAfterFurnace
  exact filter_condInsert_nil _ _ _ _ _
    (filter_condInsert_nil _ _ _ _ _ rfl rfl) rfl

theorem equipAfterFurnace_coil_free (payload : DaikinDeviceDataResponse) :
    (equipAfterFurnace payload).filter (fun p => p.2.isEEVCoil) = [] := by
  unfold equipAfterFurnace
  exact filter_condInsert_nil _ _ _ _ _
    (filter_condInsert_nil _ _ _ _ _ rfl rfl) rfl

theorem equipAfterFurnace_keysNodup (payload : DaikinDeviceDataResponse) :
    ((equipAfterFurnace payload).map Prod.fst).Nodup := by
  unfold equipAfterFurnace
  exact keysNodup_condInsert _ _ _ _
    (keysNodup_condInsert _ _ _ _ (by simp))

/-- The outdoor-unit record built by the decoder carries the synthetic id
`{model}-{serial}` built from the trimmed model and serial strings. -/
theorem mapOutdoorUnit_id (payload : DaikinDeviceDataResponse)
    (u : DaikinOutdoorUnit) (h : mapOutdoorUnit payload = .ok u) :
    u.id = outdoorEid payload := by
  unfold mapOutdoorUnit at h
  rw [except_bind_ok] at h
  obtain ⟨rv, -, h⟩ := h
  rw [except_bind_ok] at h
  obtain ⟨cch, -, h⟩ := h
  rw [except_bind_ok] at h
  obtain ⟨dph, -, h⟩ := h
  rw [except_bind_ok] at h
  obtain ⟨phh, -, h⟩ := h
  simp only [pure, Except.pure, Except.ok.injEq] at h
  subst h
  rfl

/-- Evaluation of `get_thermostat` when the cached address and the nested
schedule address are both live: the deep copy appends a fresh schedule
object and a fresh thermostat object and returns the fresh address. -/
theorem get_thermostat_eval (st : DaikinCacheState) (tid : String) (a : Nat)
    (t : ThermoObj) (s : SchedObj)
    (hla : lookupAddr st.cache tid = some a)
    (ht : st.heap.thermos[a]? = some t)
    (hs : st.heap.scheds[t.schedAddr]? = some s) :
    get_thermostat st tid
      = some ({ st with heap :=
          ⟨st.heap.thermos ++ [{ t with schedAddr := st.heap.scheds.length }],
            st.heap.scheds ++ [s]⟩ }, st.heap.thermos.length) := by
  simp only [get_thermostat, deepcopyThermo, hla, ht, hs]

/-- Dereferencing the fresh copy reads back the copied field values. -/
theorem derefThermo_concat (h : Heap) (t : ThermoObj) (s : SchedObj) :
    derefThermo ⟨h.thermos ++ [{ t with schedAddr := h.scheds.length }], h.scheds ++ [s]⟩
        h.thermos.length = some ⟨t.id, t.mode, t.set_point_heat, s.enabled⟩ := by
  unfold derefThermo
  rw [List.getElem?_concat_length]
  show (h.scheds ++ [s])[h.scheds.length]?.map _ = _
  rw [List.getElem?_concat_length]
  rfl

/-- If any device record of the batch fails to decode, the whole dict
comprehension fails (with the first failure's error). -/
theorem decodeDevices_error_of_mem (d : DaikinDeviceDataResponse)
    (ds : List DaikinDeviceDataResponse) (msg : String)
    (hmem : d ∈ ds) (herr : mapThermostat d = .error msg) :
    ∃ e, decodeDevices ds = .error e := by
  induction ds with
  | nil => cases hmem
  | cons d0 rest ih =>
    cases h0 : mapThermostat d0 with
    | error e => exact ⟨e, by simp [decodeDevices, h0, Bind.bind, Except.bind]⟩
    | ok t =>
      rcases List.mem_cons.mp hmem with rfl | hmem'
      · rw [h0] at herr
        cases herr
      · obtain ⟨e, he⟩ := ih hmem'
        exact ⟨e, by simp [decodeDevices, h0, he, Bind.bind, Except.bind]⟩

/-! # Claim theorems -/

/-- C9: for all (finite) inputs `c` and `f`, `from_celsius(c).celsius = round(c, 1)`
and `from_fahrenheit(f).celsius = round((f - 32) * 5 / 9, 1)`, and two
`Temperature` values are equal under `__eq__` iff their Celsius values are
equal after rounding to one decimal place. -/
theorem C9_temperature_round_trip :
    (∀ c : ℚ, (Temperature.from_celsius c).celsius = round1 c)
      ∧ (∀ f : ℚ, (Temperature.from_fahrenheit f).celsius = round1 ((f - 32) * 5 / 9))
      ∧ (∀ c d : ℚ,
          Temperature.pyEq (Temperature.from_celsius c) (Temperature.from_celsius d) = true
            ↔ round1 c = round1 d) := by
  refine ⟨fun c => ?_, fun f => ?_, fun c d => ?_⟩
  · simpa [Temperature.celsius, Temperature.from_celsius] using round1_round1 c
  · simpa [Temperature.celsius, Temperature.from_fahrenheit] using round1_round1 ((f - 32) * 5 / 9)
  · simp [Temperature.pyEq, Temperature.from_celsius]

/-- C1: against a backend that always answers HTTP 401, `__req` issues exactly
2 HTTP calls (the original plus one retry after a token refresh) and then
fails with a `DaikinServiceException` carrying the HTTP status and the body
of the final response; the recursive call passes `retry=false`, so no
further retries happen and the operation never loops. -/
theorem C1_req_single_retry (loginFn refreshFn : AuthState → AuthState)
    (transport : Nat → HttpResponse) (auth : AuthState)
    (h : ∀ i, (transport i).status = 401) :
    (req loginFn refreshFn transport auth 0 true).1
        = ReqResult.serviceError 401 (transport 1).body
      ∧ (req loginFn refreshFn transport auth 0 true).2.2 = 2 := by
  have h0 := h 0
  have h1 := h 1
  rw [req, req]
  simp [h0, h1]

/-- Witness for C1 at a concrete always-401 transport. -/
theorem C1_req_single_retry_witness :
    (∀ i : Nat, (always401 i).status = 401)
      ∧ (req id id always401 ⟨false, none, none⟩ 0 true).1
          = ReqResult.serviceError 401 "Unauthorized"
      ∧ (req id id always401 ⟨false, none, none⟩ 0 true).2.2 = 2 := by
  refine ⟨fun _ => rfl, ?_⟩
  have h := C1_req_single_retry id id always401 ⟨false, none, none⟩ (fun _ => rfl)
  simpa [always401] using h

/-- C4: for every device payload accepted by the decoder, the thermostat's
capabilities set equals the full set {HEAT, COOL, EMERGENCY_HEAT}
regardless of the `ctSystemCap*` flags, because
`capabilities = set(DaikinThermostatCapability)` starts from every enum
member before the conditional additions. -/
theorem C4_capabilities_always_full :
    (∀ d : DeviceData, mapCapabilities d = Finset.univ)
      ∧ ∀ (payload : DaikinDeviceDataResponse) (t : DaikinThermostat),
          mapThermostat payload = .ok t → t.capabilities = Finset.univ := by
  have h1 : ∀ d : DeviceData, mapCapabilities d = Finset.univ := by
    intro d
    unfold mapCapabilities
    split_ifs <;> simp [Finset.insert_eq_self]
  refine ⟨h1, ?_⟩
  intro payload t h
  unfold mapThermostat at h
  rw [except_bind_ok] at h
  obtain ⟨mode, -, h⟩ := h
  rw [except_bind_ok] at h
  obtain ⟨status, -, h⟩ := h
  rw [except_bind_ok] at h
  obtain ⟨equipment, -, h⟩ := h
  simp only [pure, Except.pure, Except.ok.injEq] at h
  subst h
  exact h1 payload.data

/-- Witness for C4 at the concrete sample payload. -/
theorem C4_capabilities_always_full_witness :
    mapThermostat samplePayload = .ok sampleDecoded
      ∧ sampleDecoded.capabilities = Finset.univ := by
  have h : mapThermostat samplePayload = .ok sampleDecoded := by rfl
  exact ⟨h, C4_capabilities_always_full.2 samplePayload sampleDecoded h⟩

/-- C2 (exhibiting the defect): in the climate entity's
`update_state_optimistically`, `_updates_paused = True` binds a function
local instead of assigning `self._updates_paused`, so with the entity in
its initial state (`_updates_paused = False`) the pause flag is still
false when the confirmation loop starts, stays false at every loop
iteration, and a periodic `async_update` arriving in that window does
NOT return early — it performs its refresh (the poll counter advances) —
contradicting the claimed suspension. The flag is also still false when
the operation completes. -/
theorem C2_pause_flag_never_set (remote : Nat → DaikinThermostat)
    (upd : DaikinThermostat → DaikinThermostat) (check : DaikinThermostat → Bool)
    (e : ClimateEntityState) (h : e.updates_paused = false) :
    (optimisticApply upd e).updates_paused = false
      ∧ (∀ fuel, ((waitForUpdatedValue remote check fuel (optimisticApply upd e)).1).updates_paused = false)
      ∧ (∀ nt, (async_update remote nt (optimisticApply upd e)).pollCount
            = (optimisticApply upd e).pollCount + 1)
      ∧ ∀ fuel, (update_state_optimistically remote upd check fuel e).updates_paused = false := by
  have h1 : (optimisticApply upd e).updates_paused = false := by
    simpa [optimisticApply] using h
  refine ⟨h1, fun fuel => ?_, fun nt => ?_, fun fuel => ?_⟩
  · rw [(waitForUpdatedValue_state remote check fuel _).1, h1]
  · simp [async_update, h1]
  · have h2 := (waitForUpdatedValue_state remote check fuel (optimisticApply upd e)).1
    rw [h1] at h2
    unfold update_state_optimistically
    simp [async_update, h2]

/-- Witness for C2 at a concrete entity in its initial state. -/
theorem C2_pause_flag_never_set_witness :
    sampleEntity.updates_paused = false
      ∧ (optimisticApply id sampleEntity).updates_paused = false
      ∧ ((waitForUpdatedValue (fun _ => sampleThermostat) (fun _ => true) 0
            (optimisticApply id sampleEntity)).1).updates_paused = false
      ∧ (async_update (fun _ => sampleThermostat) true (optimisticApply id sampleEntity)).pollCount
          = (optimisticApply id sampleEntity).pollCount + 1
      ∧ (update_state_optimistically (fun _ => sampleThermostat) id (fun _ => true) 0
            sampleEntity).updates_paused = false := by
  have h := C2_pause_flag_never_set (fun _ => sampleThermostat) id (fun _ => true)
    sampleEntity rfl
  exact ⟨rfl, h.1, h.2.1 0, h.2.2.1 true, h.2.2.2 0⟩

/-- C3: whatever the confirmation predicate and retry budget do, the loop
ends without raising (it is a total function returning the discarded
boolean), and the operation then performs exactly one full no-throttle
entity refresh and publishes once more (two publications in total, one
optimistic and one final), leaving the entity's thermostat equal to the
authoritative remote value at its final poll. -/
theorem C3_reconcile_after_confirm (remote : Nat → DaikinThermostat)
    (upd : DaikinThermostat → DaikinThermostat) (check : DaikinThermostat → Bool)
    (fuel : Nat) (e : ClimateEntityState) (h : e.updates_paused = false) :
    (update_state_optimistically remote upd check fuel e).fullRefreshes = e.fullRefreshes + 1
      ∧ (update_state_optimistically remote upd check fuel e).thermostat
          = remote (update_state_optimistically remote upd check fuel e).pollCount
      ∧ (update_state_optimistically remote upd check fuel e).published = e.published + 2 := by
  have hw := waitForUpdatedValue_state remote check fuel (optimisticApply upd e)
  have h1 : (optimisticApply upd e).updates_paused = false := by
    simpa [optimisticApply] using h
  have hp : ((waitForUpdatedValue remote check fuel (optimisticApply upd e)).1).updates_paused = false := by
    rw [hw.1, h1]
  unfold update_state_optimistically
  simp [async_update, hp, hw.2.2.1, hw.2.2.2]
  constructor
  · simp [optimisticApply]
  · simp [optimisticApply]

/-- Witness for C3: concrete run on the give-up path (predicate never
true, budget exhausted). -/
theorem C3_reconcile_after_confirm_witness :
    sampleEntity.updates_paused = false
      ∧ (update_state_optimistically (fun _ => sampleThermostat) id (fun _ => false) 1
            sampleEntity).fullRefreshes = sampleEntity.fullRefreshes + 1
      ∧ (update_state_optimistically (fun _ => sampleThermostat) id (fun _ => false) 1
            sampleEntity).thermostat
          = sampleThermostat
      ∧ (update_state_optimistically (fun _ => sampleThermostat) id (fun _ => false) 1
            sampleEntity).published = sampleEntity.published + 2 := by
  have h := C3_reconcile_after_confirm (fun _ => sampleThermostat) id (fun _ => false) 1
    sampleEntity rfl
  exact ⟨rfl, h.1, h.2.1, h.2.2⟩

/-- C7: an invalid write fails with a `ValueError` raised before any
network request: a single-target set-temperature call while the
thermostat mode is AUTO (or OFF) issues no PUT and raises, and
`set_thermostat_home_set_points` with neither setpoint issues no PUT and
raises. -/
theorem C7_validation_before_network (thermostat_id : String) (t : ℚ)
    (mode : DaikinThermostatMode) (schedEnabled : Bool) (override_schedule : Bool)
    (h : mode = .AUTO ∨ mode = .OFF) :
    (async_set_temperature mode schedEnabled thermostat_id (some t) none none).1 = []
      ∧ (async_set_temperature mode schedEnabled thermostat_id (some t) none none).2.isSome = true
      ∧ (set_thermostat_home_set_points thermostat_id none none override_schedule).1 = []
      ∧ (set_thermostat_home_set_points thermostat_id none none override_schedule).2.isSome = true := by
  have hs : (set_thermostat_home_set_points thermostat_id none none override_schedule).1 = []
      ∧ (set_thermostat_home_set_points thermostat_id none none override_schedule).2.isSome = true := by
    constructor <;> simp [set_thermostat_home_set_points]
  have ha : (async_set_temperature mode schedEnabled thermostat_id (some t) none none).1 = []
      ∧ (async_set_temperature mode schedEnabled thermostat_id (some t) none none).2.isSome = true := by
    unfold async_set_temperature
    by_cases ht : t = 0
    · subst ht
      constructor <;> simp [pyTruthyOptQ]
    · rcases h with h | h <;> subst h <;> constructor <;> simp [pyTruthyOptQ, ht]
  exact ⟨ha.1, ha.2, hs.1, hs.2⟩

/-- C10: every scaled demand-percentage field of a decoded equipment
record — air handler, furnace (requested and current, heat/cool/fan and
the humidification demands), and outdoor unit requested demands — equals
the raw vendor value divided by the fixed scale factor 2 and rounded to
one decimal place. (The air-handler and furnace assignments divide
without rounding; on integer raw values the quotient is already exact to
one decimal, so it coincides with the rounded value.) -/
theorem C10_demand_scaling (payload : DaikinDeviceDataResponse) :
    ((mapAirHandlerUnit payload).fan_demand_requested_percent
        = round1 ((payload.data.ctAHFanRequestedDemand : ℚ) / 2)
      ∧ (mapAirHandlerUnit payload).fan_demand_current_percent
          = round1 ((payload.data.ctAHFanCurrentDemandStatus : ℚ) / 2)
      ∧ (mapAirHandlerUnit payload).heat_demand_requested_percent
          = round1 ((payload.data.ctAHHeatRequestedDemand : ℚ) / 2)
      ∧ (mapAirHandlerUnit payload).heat_demand_current_percent
          = round1 ((payload.data.ctAHHeatCurrentDemandStatus : ℚ) / 2)
      ∧ (mapAirHandlerUnit payload).humidification_demand_requested_percent
          = round1 ((payload.data.ctAHHumidificationRequestedDemand : ℚ) / 2))
    ∧ ((mapFurnaceUnit payload).fan_demand_requested_percent
        = round1 ((payload.data.ctIFCFanRequestedDemandPercent : ℚ) / 2)
      ∧ (mapFurnaceUnit payload).fan_demand_current_percent
          = round1 ((payload.data.ctIFCCurrentFanActualStatus : ℚ) / 2)
      ∧ (mapFurnaceUnit payload).heat_demand_requested_percent
          = round1 ((payload.data.ctIFCHeatRequestedDemandPercent : ℚ) / 2)
      ∧ (mapFurnaceUnit payload).heat_demand_current_percent
          = round1 ((payload.data.ctIFCCurrentHeatActualStatus : ℚ) / 2)
      ∧ (mapFurnaceUnit payload).cool_demand_requested_percent
          = some (round1 ((payload.data.ctIFCCoolRequestedDemandPercent : ℚ) / 2))
      ∧ (mapFurnaceUnit payload).cool_demand_current_percent
          = some (round1 ((payload.data.ctIFCCurrentCoolActualStatus : ℚ) / 2))
      ∧ (mapFurnaceUnit payload).humidification_demand_requested_percent
          = round1 ((payload.data.ctIFCHumRequestedDemandPercent : ℚ) / 2)
      ∧ (mapFurnaceUnit payload).dehumidification_demand_requested_percent
          = some (round1 ((payload.data.ctIFCDehumRequestedDemandPercent : ℚ) / 2)))
    ∧ ∀ u, mapOutdoorUnit payload = .ok u →
        u.heat_demand_percent = round1 ((payload.data.ctOutdoorHeatRequestedDemand : ℚ) / 2)
          ∧ u.cool_demand_percent = round1 ((payload.data.ctOutdoorCoolRequestedDemand : ℚ) / 2)
          ∧ u.fan_demand_percent = round1 ((payload.data.ctOutdoorFanRequestedDemandPercentage : ℚ) / 2)
          ∧ u.dehumidify_demand_percent
              = round1 ((payload.data.ctOutdoorDeHumidificationRequestedDemand : ℚ) / 2) := by
  refine ⟨⟨?_, ?_, ?_, ?_, ?_⟩, ⟨?_, ?_, ?_, ?_, ?_, ?_, ?_, ?_⟩, ?_⟩
  case _ => exact (round1_int_half _).symm
  case _ => exact (round1_int_half _).symm
  case _ => exact (round1_int_half _).symm
  case _ => exact (round1_int_half _).symm
  case _ => exact (round1_int_half _).symm
  case _ => exact (round1_int_half _).symm
  case _ => exact (round1_int_half _).symm
  case _ => exact (round1_int_half _).symm
  case _ => exact (round1_int_half _).symm
  case _ => simp [mapFurnaceUnit, round1_int_half]
  case _ => simp [mapFurnaceUnit, round1_int_half]
  case _ => exact (round1_int_half _).symm
  case _ => simp [mapFurnaceUnit, round1_int_half]
  case _ =>
    intro u h
    unfold mapOutdoorUnit at h
    rw [except_bind_ok] at h
    obtain ⟨rv, -, h⟩ := h
    rw [except_bind_ok] at h
    obtain ⟨cch, -, h⟩ := h
    rw [except_bind_ok] at h
    obtain ⟨dph, -, h⟩ := h
    rw [except_bind_ok] at h
    obtain ⟨phh, -, h⟩ := h
    simp only [pure, Except.pure, Except.ok.injEq] at h
    subst h
    exact ⟨rfl, rfl, rfl, rfl⟩

/-- Witness for C10's outdoor-unit part at the concrete sample payload. -/
theorem C10_demand_scaling_witness :
    mapOutdoorUnit samplePayload = .ok sampleOutdoorUnit
      ∧ sampleOutdoorUnit.heat_demand_percent
          = round1 ((sampleData.ctOutdoorHeatRequestedDemand : ℚ) / 2)
      ∧ (mapAirHandlerUnit samplePayload).fan_demand_requested_percent
          = round1 ((sampleData.ctAHFanRequestedDemand : ℚ) / 2) := by
  have h : mapOutdoorUnit samplePayload = .ok sampleOutdoorUnit := by rfl
  exact ⟨h, ((C10_demand_scaling samplePayload).2.2 sampleOutdoorUnit h).1,
    (C10_demand_scaling samplePayload).1.1⟩

/-- C8: on every poll the thermostat cache is replaced atomically as one
whole map. If the fetch fails, or any record in the batch fails to
decode, the cache retains exactly its previous contents and the error
propagates; and whenever the poll succeeds, the new cache is a function
of the response alone — it does not depend on the previous contents. -/
theorem C8_cache_replaced_atomically (cache cache2 : List (String × DaikinThermostat))
    (fetch : Except String (List DaikinDeviceDataResponse)) :
    (((∃ e, fetch = .error e)
        ∨ ∃ ds d msg, fetch = .ok ds ∧ d ∈ ds ∧ mapThermostat d = .error msg) →
      (refreshThermostats cache fetch).1 = cache
        ∧ (refreshThermostats cache fetch).2.isSome = true)
    ∧ ((refreshThermostats cache fetch).2 = none →
        (refreshThermostats cache fetch).1 = (refreshThermostats cache2 fetch).1) := by
  constructor
  · rintro (⟨e, rfl⟩ | ⟨ds, d, msg, rfl, hmem, herr⟩)
    · exact ⟨rfl, rfl⟩
    · obtain ⟨e, he⟩ := decodeDevices_error_of_mem d ds msg hmem herr
      simp [refreshThermostats, he]
  · intro hnone
    cases fetch with
    | error e => simp [refreshThermostats] at hnone
    | ok ds =>
      cases hd : decodeDevices ds with
      | error e => simp [refreshThermostats, hd] at hnone
      | ok entries => simp [refreshThermostats, hd]

/-- Witness for C8: a batch whose second record has the unmapped mode
code 7 leaves the previous cache contents in place. -/
theorem C8_cache_replaced_atomically_witness :
    mapThermostat badModePayload = .error "not a valid DaikinThermostatMode"
      ∧ (refreshThermostats sampleCache (.ok [samplePayload, badModePayload])).1 = sampleCache
      ∧ (refreshThermostats sampleCache (.ok [samplePayload, badModePayload])).2.isSome = true := by
  have herr : mapThermostat badModePayload = .error "not a valid DaikinThermostatMode" := by rfl
  have h := (C8_cache_replaced_atomically sampleCache sampleCache
      (.ok [samplePayload, badModePayload])).1
    (Or.inr ⟨[samplePayload, badModePayload], badModePayload, _, rfl, by simp, herr⟩)
  exact ⟨herr, h.1, h.2⟩

/-- C6: an equipment category whose companion unit-type field is ≥ 255 is
omitted from the equipment map entirely (no entry of its kind at all);
with the outdoor unit-type below 255 (e.g. 10) and valid fields, the map
contains exactly one outdoor-unit entry, keyed by the synthetic id
`{model}-{serial}` built from the trimmed model and serial strings (the
side condition rules out the EEV-coil entry overwriting the outdoor key,
which matches "valid fields"). -/
theorem C6_equipment_presence (payload : DaikinDeviceDataResponse)
    (m : List (String × DaikinEquipment)) (hm : mapEquipment payload = .ok m) :
    (255 ≤ payload.data.ctOutdoorUnitType → outdoorEntries m = [])
      ∧ (255 ≤ payload.data.ctCoilUnitType → coilEntries m = [])
      ∧ (255 ≤ payload.data.ctAHUnitType → 255 ≤ payload.data.ctIFCUnitType →
          indoorEntries m = [])
      ∧ (payload.data.ctOutdoorUnitType < 255 →
          (payload.data.ctCoilUnitType < 255 →
            "eevcoil-" ++ payload.data.ctCoilSerialNoCharacter1_15.trim
              ≠ outdoorEid payload) →
          ∃ u, mapOutdoorUnit payload = .ok u
            ∧ outdoorEntries m = [(outdoorEid payload, .outdoorUnit u)]) := by
  simp only [mapEquipment] at hm
  by_cases hout : payload.data.ctOutdoorUnitType < 255
  · rw [if_pos hout] at hm
    rw [except_bind_ok] at hm
    obtain ⟨u, hu, hfin⟩ := hm
    rw [except_bind_ok] at hfin
    obtain ⟨meq, hins, hfin⟩ := hfin
    simp only [pure, Except.pure, Except.ok.injEq] at hins hfin
    subst hins
    subst hfin
    have hid := mapOutdoorUnit_id payload u hu
    refine ⟨fun habs => absurd hout (by omega), fun hcoil => ?_, fun hAH hIFC => ?_,
      fun _ hkey => ?_⟩
    · unfold coilEntries coilStep
      rw [if_neg (by omega : ¬ payload.data.ctCoilUnitType < 255)]
      exact filter_dictInsert_nil _ _ _ _ (equipAfterFurnace_coil_free payload) rfl
    · have h1 : ¬ payload.data.ctAHUnitType < 255 := by omega
      have h2 : ¬ payload.data.ctIFCUnitType < 255 := by omega
      have hA : equipAfterFurnace payload = [] := by
        simp only [equipAfterFurnace, if_neg h1, if_neg h2]
      rw [hA]
      unfold indoorEntries coilStep
      apply filter_condInsert_nil
      · exact filter_dictInsert_nil _ _ _ _ rfl rfl
      · rfl
    · have h1 := filter_dictInsert_true (fun p => p.2.isOutdoorUnit)
        (equipAfterFurnace payload) u.id (.outdoorUnit u) rfl
        (equipAfterFurnace_outdoor_free payload) (equipAfterFurnace_keysNodup payload)
      refine ⟨u, hu, ?_⟩
      rw [← hid]
      unfold outdoorEntries coilStep
      split
      next hc =>
        exact filter_dictInsert_keep _ _ _ _ _ _ h1 rfl
          (fun h => hkey hc (h.trans hid))
      next hc => exact h1
  · rw [if_neg hout] at hm
    rw [except_bind_ok] at hm
    obtain ⟨meq, hX, hfin⟩ := hm
    simp only [pure, Except.pure, Except.ok.injEq] at hX hfin
    subst hX
    subst hfin
    refine ⟨fun _ => ?_, fun hcoil => ?_, fun hAH hIFC => ?_,
      fun hlt => absurd hlt hout⟩
    · unfold outdoorEntries coilStep
      apply filter_condInsert_nil
      · exact equipAfterFurnace_outdoor_free payload
      · rfl
    · unfold coilEntries coilStep
      rw [if_neg (by omega : ¬ payload.data.ctCoilUnitType < 255)]
      exact equipAfterFurnace_coil_free payload
    · have h1 : ¬ payload.data.ctAHUnitType < 255 := by omega
      have h2 : ¬ payload.data.ctIFCUnitType < 255 := by omega
      have hA : equipAfterFurnace payload = [] := by
        simp only [equipAfterFurnace, if_neg h1, if_neg h2]
      rw [hA]
      unfold indoorEntries coilStep
      apply filter_condInsert_nil
      · rfl
      · rfl

/-- Witness for C6 at the concrete sample payload (outdoor unit-type 10,
coil absent): the decoded map has exactly one outdoor entry under the
trimmed `{model}-{serial}` key. -/
theorem C6_equipment_presence_witness :
    mapEquipment samplePayload = .ok sampleEquipmentMap
      ∧ samplePayload.data.ctOutdoorUnitType < 255
      ∧ outdoorEntries sampleEquipmentMap
          = [(outdoorEid samplePayload, .outdoorUnit sampleOutdoorUnit)] := by
  have hm : mapEquipment samplePayload = .ok sampleEquipmentMap := by rfl
  obtain ⟨u, hu, hout⟩ := (C6_equipment_presence samplePayload sampleEquipmentMap hm).2.2.2
    (by decide) (fun hc => absurd hc (by decide))
  have hsu : mapOutdoorUnit samplePayload = .ok sampleOutdoorUnit := by rfl
  rw [hsu] at hu
  injection hu with hu
  subst hu
  exact ⟨hm, by decide, hout⟩

/-- C5: `get_thermostat` returns a deep copy, never the live cached
object: whatever mutation the caller applies to the returned object —
a top-level field assignment or a nested schedule-field assignment — a
subsequent `get_thermostat(id)` (before the next `update()`) returns a
value equal to the one the first call returned before the mutation. -/
theorem C5_cache_copy_isolation (st : DaikinCacheState) (tid : String)
    (st1 : DaikinCacheState) (a1 : Nat) (μ : ThermoMutation)
    (hget : get_thermostat st tid = some (st1, a1)) :
    ∃ st2 a2,
      get_thermostat { st1 with heap := mutateThermo st1.heap a1 μ } tid
          = some (st2, a2)
        ∧ derefThermo st2.heap a2 = derefThermo st1.heap a1 := by
  unfold get_thermostat deepcopyThermo at hget
  cases hla : lookupAddr st.cache tid with
  | none => simp only [hla] at hget; cases hget
  | some a =>
  simp only [hla] at hget
  cases ht : st.heap.thermos[a]? with
  | none => simp only [ht] at hget; cases hget
  | some t =>
  simp only [ht] at hget
  cases hs : st.heap.scheds[t.schedAddr]? with
  | none => simp only [hs] at hget; cases hget
  | some s =>
  simp only [hs, Option.some.injEq] at hget
  have e1 : ({ st with heap :=
      ⟨st.heap.thermos ++ [{ t with schedAddr := st.heap.scheds.length }],
        st.heap.scheds ++ [s]⟩ } : DaikinCacheState) = st1 := congrArg Prod.fst hget
  have e2 : st.heap.thermos.length = a1 := congrArg Prod.snd hget
  subst e1
  subst e2
  have ha : a < st.heap.thermos.length := (List.getElem?_eq_some.mp ht).1
  have hsa : t.schedAddr < st.heap.scheds.length := (List.getElem?_eq_some.mp hs).1
  have h1a : (st.heap.thermos ++ [{ t with schedAddr := st.heap.scheds.length }])[a]?
      = some t := by rw [List.getElem?_append_left ha]; exact ht
  have h1t : (st.heap.thermos ++ [{ t with schedAddr := st.heap.scheds.length }])[st.heap.thermos.length]?
      = some { t with schedAddr := st.heap.scheds.length } :=
    List.getElem?_concat_length _ _
  have h1L : (st.heap.scheds ++ [s])[st.heap.scheds.length]? = some s :=
    List.getElem?_concat_length _ _
  have h1s : (st.heap.scheds ++ [s])[t.schedAddr]? = some s := by
    rw [List.getElem?_append_left hsa]; exact hs
  have hd1 : derefThermo
      ⟨st.heap.thermos ++ [{ t with schedAddr := st.heap.scheds.length }],
        st.heap.scheds ++ [s]⟩ st.heap.thermos.length
      = some ⟨t.id, t.mode, t.set_point_heat, s.enabled⟩ :=
    derefThermo_concat st.heap t s
  have key : (mutateThermo
        ⟨st.heap.thermos ++ [{ t with schedAddr := st.heap.scheds.length }],
          st.heap.scheds ++ [s]⟩ st.heap.thermos.length μ).thermos[a]? = some t
      ∧ (mutateThermo
        ⟨st.heap.thermos ++ [{ t with schedAddr := st.heap.scheds.length }],
          st.heap.scheds ++ [s]⟩ st.heap.thermos.length μ).scheds[t.schedAddr]?
        = some s := by
    cases μ with
    | setMode mv =>
      simp only [mutateThermo, h1t]
      refine ⟨?_, h1s⟩
      rw [List.getElem?_set_ne (Nat.ne_of_gt ha)]
      exact h1a
    | setSetPointHeat q =>
      simp only [mutateThermo, h1t]
      refine ⟨?_, h1s⟩
      rw [List.getElem?_set_ne (Nat.ne_of_gt ha)]
      exact h1a
    | setSchedEnabled b =>
      simp only [mutateThermo, h1t, h1L]
      refine ⟨h1a, ?_⟩
      rw [List.getElem?_set_ne (Nat.ne_of_gt hsa)]
      exact h1s
  refine ⟨_, _, get_thermostat_eval _ tid a t s hla key.1 key.2, ?_⟩
  rw [derefThermo_concat, hd1]

/-- Witness for C5: one cached thermostat; after `get_thermostat` and a
mode mutation on the returned copy, a second `get_thermostat` still
reads the original values. -/
theorem C5_cache_copy_isolation_witness :
    get_thermostat sampleCacheState "t-1" = some (sampleCacheStep1, 1)
      ∧ ((get_thermostat
            { sampleCacheStep1 with
              heap := mutateThermo sampleCacheStep1.heap 1 (.setMode 3) } "t-1").map
          (fun r => derefThermo r.1.heap r.2)) = some (derefThermo sampleCacheStep1.heap 1) := by
  have h1 : get_thermostat sampleCacheState "t-1" = some (sampleCacheStep1, 1) := by rfl
  obtain ⟨st2, a2, hg, hd⟩ :=
    C5_cache_copy_isolation sampleCacheState "t-1" sampleCacheStep1 1 (.setMode 3) h1
  refine ⟨h1, ?_⟩
  rw [hg]
  simp [hd]

/-- Witness for C7 at concrete inputs (mode AUTO, 22 °C). -/
theorem C7_validation_before_network_witness :
    (DaikinThermostatMode.AUTO = DaikinThermostatMode.AUTO ∨
        DaikinThermostatMode.AUTO = DaikinThermostatMode.OFF)
      ∧ (async_set_temperature .AUTO true "t-1" (some 22) none none).1 = []
      ∧ (async_set_temperature .AUTO true "t-1" (some 22) none none).2.isSome = true
      ∧ (set_thermostat_home_set_points "t-1" none none false).1 = []
      ∧ (set_thermostat_home_set_points "t-1" none none false).2.isSome = true := by
  have h := C7_validation_before_network "t-1" 22 .AUTO true false (Or.inl rfl)
  exact ⟨Or.inl rfl, h.1, h.2.1, h.2.2.1, h.2.2.2⟩

end Daikinone
